import Mathlib

/-!
Verification development for the LearnerPDC repository (Karmachov/LearnerPDC).

The development shallowly embeds the document-signing parts of the three
source files:

- `src/WebApp/logic.py` — `add_image_to_all_pages_fitz` (visual stamp
  placement) and `sign_pdf` (cryptographic signing of the PDF via the
  endesive library, appending the returned signature bytes to the
  original file contents);
- `src/WebApp/app.py` — `generate_report` (saving uploaded key and
  certificate files into the uploads folder and deleting them again via
  `cleanup_uploads` after the response);
- `src/learner.py` — `sign_pdf` (the CLI variant, which writes an
  overlay-stamped copy to a fixed temporary path and returns before the
  cryptographic-signing code).

File contents are byte lists, the file system is an association list from
path strings to contents, and external libraries (cryptography, endesive,
PyPDF2, PIL) enter as function parameters so that theorems quantify over
every possible library behaviour.
-/

/-- Bytes of a file, modelled as a list of naturals. -/
abbrev Bytes := List Nat

/-- A file system: an association list from paths to file contents.
A write conses a new binding in front; a read returns the first binding. -/
abbrev FS := List (String × Bytes)

/-- Read a file: first binding for the path wins (later writes shadow
earlier ones). `none` models a missing file, where Python `open` raises. -/
def fsRead (fs : FS) (p : String) : Option Bytes :=
  match fs with
  | [] => none
  | (q, b) :: rest => if q = p then some b else fsRead rest p

/-- Write (create or overwrite) a file. -/
def fsWrite (fs : FS) (p : String) (b : Bytes) : FS :=
  (p, b) :: fs

theorem fsRead_fsWrite (fs : FS) (p q : String) (b : Bytes) :
    fsRead (fsWrite fs p b) q = if p = q then some b else fsRead fs q := by
  simp [fsWrite, fsRead]

theorem fsRead_fsWrite_self (fs : FS) (p : String) (b : Bytes) :
    fsRead (fsWrite fs p b) p = some b := by
  simp [fsRead_fsWrite]

theorem fsRead_fsWrite_ne (fs : FS) (p q : String) (b : Bytes) (h : q ≠ p) :
    fsRead (fsWrite fs p b) q = fsRead fs q := by
  rw [fsRead_fsWrite, if_neg (Ne.symm h)]

/-- Opaque handle for a parsed private key
(`cryptography.load_pem_private_key` result). -/
structure PrivKey where
  keyId : Nat
deriving DecidableEq

/-- Parsed certificate (`cryptography.load_pem_x509_certificate` result).
Only the validity window matters for the claims; the remaining X.509
fields are irrelevant to every code path in the repository. -/
structure Cert where
  notBefore : Nat
  notAfter : Nat
deriving DecidableEq

/-- The `signdata` dictionary built inside `sign_pdf` in
`src/WebApp/logic.py`, with its literal constants.  The Python code
formats `datetime.now()` into the `signingdate` string; the model keeps
the current time as a natural number since no claim depends on the
format. -/
structure SignData where
  sigflags : Nat
  contact : String
  location : String
  reason : String
  signaturebox : Int × Int × Int × Int
  signatureImg : String
  signingdate : Nat
  page : Nat
deriving DecidableEq

/-- `signdata` as `sign_pdf` in `src/WebApp/logic.py` constructs it:
`single_page_box = (435, 72, 540, 105)` and `page: 0`. -/
def mkSignData (imagePath : String) (now : Nat) : SignData :=
  { sigflags := 3
  , contact := "faculty.email@example.com"
  , location := "Manipal, India"
  , reason := "I am the author of this document"
  , signaturebox := (435, 72, 540, 105)
  , signatureImg := imagePath
  , signingdate := now
  , page := 0 }

/-- Result of `sign_pdf` in `src/WebApp/logic.py`: the boolean return
value, the file system after the call, and how many times the
cryptographic signing primitive (`pdf.cms.sign`) was invoked. -/
structure SignResult where
  ok : Bool
  fs : FS
  sigs : Nat
deriving DecidableEq

/-- Shallow embedding of `sign_pdf` from `src/WebApp/logic.py`
(lines 114-166).  External libraries are parameters:

- `pdfLib` — whether the endesive import succeeded (`pdf` is not `None`);
- `loadKey` — `load_pem_private_key` over key bytes and password
  (`none` models a parse/password exception);
- `loadCert` — `load_pem_x509_certificate` (`none` models a parse
  exception);
- `cmsSign` — `pdf.cms.sign`, which returns the bytes of the incremental
  update to be appended (`none` models an exception inside endesive).

The Python code first checks `all([pdf, key_path, cert_path, image_path])`
(`None` or the empty string are both falsy), then inside a `try` block
loads the key, loads the certificate, reads the document, calls
`pdf.cms.sign`, and finally rewrites the document file with
`pdf_data + signed_pdf_bytes`.  Any exception is caught and the function
returns `False`; every failure therefore happens before the single write
and leaves the file system untouched. -/
def signPdfCore (pdfLib : Bool)
    (loadKey : Bytes → String → Option PrivKey)
    (loadCert : Bytes → Option Cert)
    (cmsSign : Bytes → SignData → PrivKey → Cert → Option Bytes)
    (fs : FS) (pdfPath : String)
    (keyPath certPath imagePath : Option String)
    (password : String) (now : Nat) : Option Bytes :=
  match pdfLib, keyPath, certPath, imagePath with
  | true, some kp, some cp, some ip =>
    if kp = "" ∨ cp = "" ∨ ip = "" then none
    else
      (fsRead fs kp).bind fun keyBytes =>
      (loadKey keyBytes password).bind fun pk =>
      (fsRead fs cp).bind fun certBytes =>
      (loadCert certBytes).bind fun cert =>
      (fsRead fs pdfPath).bind fun pdfData =>
      (cmsSign pdfData (mkSignData ip now) pk cert).bind fun sigBytes =>
      some (pdfData ++ sigBytes)
  | _, _, _, _ => none

/-- The full `sign_pdf` from `src/WebApp/logic.py`: on success the
computed bytes `pdf_data + signed_pdf_bytes` are written back to
`pdf_path` and `True` is returned; on any failure (guard or exception)
nothing has been written and `False` is returned. -/
def signPdf (pdfLib : Bool)
    (loadKey : Bytes → String → Option PrivKey)
    (loadCert : Bytes → Option Cert)
    (cmsSign : Bytes → SignData → PrivKey → Cert → Option Bytes)
    (fs : FS) (pdfPath : String)
    (keyPath certPath imagePath : Option String)
    (password : String) (now : Nat) : SignResult :=
  match signPdfCore pdfLib loadKey loadCert cmsSign fs pdfPath
      keyPath certPath imagePath password now with
  | none => ⟨false, fs, 0⟩
  | some out => ⟨true, fsWrite fs pdfPath out, 1⟩

/-- Every failing run of `sign_pdf` (return value `False`) happens before
the single file write, so the file system is returned unchanged and the
signing primitive was never completed. Shared inversion lemma. -/
theorem signPdf_fail_state (pdfLib : Bool)
    (loadKey : Bytes → String → Option PrivKey)
    (loadCert : Bytes → Option Cert)
    (cmsSign : Bytes → SignData → PrivKey → Cert → Option Bytes)
    (fs : FS) (pdfPath : String)
    (keyPath certPath imagePath : Option String)
    (password : String) (now : Nat)
    (hfail : (signPdf pdfLib loadKey loadCert cmsSign fs pdfPath
        keyPath certPath imagePath password now).ok = false) :
    signPdf pdfLib loadKey loadCert cmsSign fs pdfPath
        keyPath certPath imagePath password now = ⟨false, fs, 0⟩ := by
  unfold signPdf at hfail ⊢
  rcases h : signPdfCore pdfLib loadKey loadCert cmsSign fs pdfPath
      keyPath certPath imagePath password now with _ | out <;>
    simp only [h] at hfail ⊢
  exact absurd hfail (by simp)

/-- Success inversion for `sign_pdf`: a `True` return means exactly one
call of the signing primitive succeeded on bytes read from `pdf_path`,
and the file at `pdf_path` was rewritten with the original bytes followed
by the appended signature bytes. -/
theorem signPdf_ok_state (pdfLib : Bool)
    (loadKey : Bytes → String → Option PrivKey)
    (loadCert : Bytes → Option Cert)
    (cmsSign : Bytes → SignData → PrivKey → Cert → Option Bytes)
    (fs : FS) (pdfPath : String)
    (keyPath certPath imagePath : Option String)
    (password : String) (now : Nat)
    (hok : (signPdf pdfLib loadKey loadCert cmsSign fs pdfPath
        keyPath certPath imagePath password now).ok = true) :
    ∃ pdfData sigBytes,
      fsRead fs pdfPath = some pdfData ∧
      signPdf pdfLib loadKey loadCert cmsSign fs pdfPath
        keyPath certPath imagePath password now
        = ⟨true, fsWrite fs pdfPath (pdfData ++ sigBytes), 1⟩ := by
  unfold signPdf at hok ⊢
  rcases h : signPdfCore pdfLib loadKey loadCert cmsSign fs pdfPath
      keyPath certPath imagePath password now with _ | out <;>
    simp only [h] at hok ⊢
  · exact absurd hok (by simp)
  · unfold signPdfCore at h
    rcases pdfLib <;> rcases keyPath with _ | kp <;>
      rcases certPath with _ | cp <;> rcases imagePath with _ | ip <;>
      try exact Option.noConfusion h
    split at h
    · split at h
      · exact Option.noConfusion h
      · simp only [Option.bind_eq_some, Option.some.injEq] at h
        obtain ⟨keyBytes, hkb, pk, hpk, certBytes, hcb, cert, hcert,
          pdfData, hpd, sigBytes, hsig, hout⟩ := h
        exact ⟨pdfData, sigBytes, hpd, by rw [hout]⟩
    · rename_i hx
      exact (hx kp cp ip rfl rfl rfl rfl).elim

/-- Page count of a document in the toy byte format used for concrete
examples: pages are terminated by the form-feed byte 12.  `sign_pdf` in
`src/WebApp/logic.py` never inspects the page structure of its input, so
this counter is independent of the embedded code; it only serves to name
a concrete three-page document. -/
def countPages (doc : Bytes) : Nat := doc.count 12

/-- Concrete parser stub for a private key, for example runs. -/
def testLoadKey : Bytes → String → Option PrivKey := fun _ _ => some ⟨0⟩

/-- Concrete parser stub producing a certificate that expired at time 50,
for example runs. -/
def testLoadCert : Bytes → Option Cert := fun _ => some ⟨0, 50⟩

/-- Concrete signing-primitive stub, for example runs. -/
def testCms : Bytes → SignData → PrivKey → Cert → Option Bytes :=
  fun _ _ _ _ => some [7, 7]

/-- A key parser that always fails, modelling an unreadable key file. -/
def badLoadKey : Bytes → String → Option PrivKey := fun _ _ => none

/-- A signing primitive that always fails, modelling an endesive
exception. -/
def badCms : Bytes → SignData → PrivKey → Cert → Option Bytes :=
  fun _ _ _ _ => none

/-- Concrete file system with a document, key, certificate and image. -/
def testFs : FS :=
  [("doc.pdf", [10, 20]), ("key.pem", [1]), ("cert.pem", [2]),
   ("img.png", [3])]

/-- Concrete file system whose document has three pages in the toy
format. -/
def testFs3 : FS :=
  [("doc.pdf", [65, 12, 66, 12, 67, 12]), ("key.pem", [1]),
   ("cert.pem", [2]), ("img.png", [3])]

/-- C1: for every document, key, certificate and image accepted by the
cryptographic signing step of `sign_pdf` (`src/WebApp/logic.py`), every
byte of the input document is preserved unchanged in the output: the
signed file consists of the original document bytes followed only by
appended signature bytes, and no other file is touched. -/
theorem claim_c1_original_bytes_preserved (pdfLib : Bool)
    (loadKey : Bytes → String → Option PrivKey)
    (loadCert : Bytes → Option Cert)
    (cmsSign : Bytes → SignData → PrivKey → Cert → Option Bytes)
    (fs : FS) (pdfPath : String)
    (keyPath certPath imagePath : Option String)
    (password : String) (now : Nat) (orig : Bytes)
    (horig : fsRead fs pdfPath = some orig)
    (hok : (signPdf pdfLib loadKey loadCert cmsSign fs pdfPath
        keyPath certPath imagePath password now).ok = true) :
    ∃ sigBytes,
      fsRead (signPdf pdfLib loadKey loadCert cmsSign fs pdfPath
          keyPath certPath imagePath password now).fs pdfPath
        = some (orig ++ sigBytes) ∧
      ∀ q, q ≠ pdfPath →
        fsRead (signPdf pdfLib loadKey loadCert cmsSign fs pdfPath
            keyPath certPath imagePath password now).fs q = fsRead fs q := by
  obtain ⟨pdfData, sigBytes, hpd, heq⟩ :=
    signPdf_ok_state pdfLib loadKey loadCert cmsSign fs pdfPath
      keyPath certPath imagePath password now hok
  rw [horig] at hpd
  obtain rfl : orig = pdfData := by injection hpd
  refine ⟨sigBytes, ?_, ?_⟩
  · rw [heq]
    exact fsRead_fsWrite_self fs pdfPath (orig ++ sigBytes)
  · intro q hq
    rw [heq]
    exact fsRead_fsWrite_ne fs pdfPath q (orig ++ sigBytes) hq

theorem claim_c1_witness :
    ∃ sigBytes,
      fsRead (signPdf true testLoadKey testLoadCert testCms testFs "doc.pdf"
          (some "key.pem") (some "cert.pem") (some "img.png") "pw" 100).fs
          "doc.pdf"
        = some ([10, 20] ++ sigBytes) ∧
      ∀ q, q ≠ "doc.pdf" →
        fsRead (signPdf true testLoadKey testLoadCert testCms testFs "doc.pdf"
            (some "key.pem") (some "cert.pem") (some "img.png") "pw" 100).fs q
          = fsRead testFs q :=
  claim_c1_original_bytes_preserved true testLoadKey testLoadCert testCms
    testFs "doc.pdf" (some "key.pem") (some "cert.pem") (some "img.png")
    "pw" 100 [10, 20] (by decide) (by decide)

/-- C3: every signing call that fails (return value `False`) fails before
the signature container is written; the caller-visible document file, and
every other file, is left byte-for-byte unchanged, and the signing
primitive was never completed. -/
theorem claim_c3_failure_is_atomic (pdfLib : Bool)
    (loadKey : Bytes → String → Option PrivKey)
    (loadCert : Bytes → Option Cert)
    (cmsSign : Bytes → SignData → PrivKey → Cert → Option Bytes)
    (fs : FS) (pdfPath : String)
    (keyPath certPath imagePath : Option String)
    (password : String) (now : Nat)
    (hfail : (signPdf pdfLib loadKey loadCert cmsSign fs pdfPath
        keyPath certPath imagePath password now).ok = false) :
    ∀ p, fsRead (signPdf pdfLib loadKey loadCert cmsSign fs pdfPath
        keyPath certPath imagePath password now).fs p = fsRead fs p := by
  rw [signPdf_fail_state pdfLib loadKey loadCert cmsSign fs pdfPath
    keyPath certPath imagePath password now hfail]
  intro p
  rfl

theorem claim_c3_witness :
    fsRead (signPdf true testLoadKey testLoadCert testCms [] "doc.pdf"
        (some "key.pem") (some "cert.pem") (some "img.png") "pw" 100).fs
        "doc.pdf"
      = fsRead [] "doc.pdf" :=
  claim_c3_failure_is_atomic true testLoadKey testLoadCert testCms []
    "doc.pdf" (some "key.pem") (some "cert.pem") (some "img.png") "pw" 100
    (by decide) "doc.pdf"

/-- C4 counterexample: a certificate whose validity ended at time 50,
used at time 100, is accepted by `sign_pdf`: the call succeeds and output
bytes are written, refuting that an expired certificate yields
`IdentityError::Expired` with no output. -/
theorem claim_c4_counterexample :
    testLoadCert [2] = some ⟨0, 50⟩ ∧
    (⟨0, 50⟩ : Cert).notAfter < 100 ∧
    (signPdf true testLoadKey testLoadCert testCms testFs "doc.pdf"
      (some "key.pem") (some "cert.pem") (some "img.png") "pw" 100).ok
      = true ∧
    fsRead (signPdf true testLoadKey testLoadCert testCms testFs "doc.pdf"
        (some "key.pem") (some "cert.pem") (some "img.png") "pw" 100).fs
        "doc.pdf"
      = some [10, 20, 7, 7] := by decide

/-- C4 amended: `sign_pdf` performs no certificate-validity check.  When
every load step succeeds and the signing primitive succeeds, a
certificate whose `not_after` lies strictly in the past is accepted
exactly like a valid one: the call returns `True` and writes the signed
output. -/
theorem claim_c4_expired_cert_not_rejected
    (loadKey : Bytes → String → Option PrivKey)
    (loadCert : Bytes → Option Cert)
    (cmsSign : Bytes → SignData → PrivKey → Cert → Option Bytes)
    (fs : FS) (pdfPath kp cp ip : String) (password : String) (now : Nat)
    (keyBytes certBytes pdfData sigBytes : Bytes)
    (pk : PrivKey) (cert : Cert)
    (hkp : kp ≠ "") (hcp : cp ≠ "") (hip : ip ≠ "")
    (h1 : fsRead fs kp = some keyBytes)
    (h2 : loadKey keyBytes password = some pk)
    (h3 : fsRead fs cp = some certBytes)
    (h4 : loadCert certBytes = some cert)
    (hexpired : cert.notAfter < now)
    (h5 : fsRead fs pdfPath = some pdfData)
    (h6 : cmsSign pdfData (mkSignData ip now) pk cert = some sigBytes) :
    signPdf true loadKey loadCert cmsSign fs pdfPath
        (some kp) (some cp) (some ip) password now
      = ⟨true, fsWrite fs pdfPath (pdfData ++ sigBytes), 1⟩ := by
  simp [signPdf, signPdfCore, hkp, hcp, hip, h1, h2, h3, h4, h5, h6]

theorem claim_c4_witness :
    signPdf true testLoadKey testLoadCert testCms testFs "doc.pdf"
        (some "key.pem") (some "cert.pem") (some "img.png") "pw" 100
      = ⟨true, fsWrite testFs "doc.pdf" ([10, 20] ++ [7, 7]), 1⟩ :=
  claim_c4_expired_cert_not_rejected testLoadKey testLoadCert testCms
    testFs "doc.pdf" "key.pem" "cert.pem" "img.png" "pw" 100
    [1] [2] [10, 20] [7, 7] ⟨0⟩ ⟨0, 50⟩
    (by decide) (by decide) (by decide) (by decide) (by decide) (by decide)
    (by decide) (by decide) (by decide) (by decide)

/-- C6 counterexample: signing a three-page document produces exactly one
signature object (one successful call of the signing primitive, placed on
page 0), not three, refuting the per-page AllPages behaviour. -/
theorem claim_c6_counterexample :
    countPages [65, 12, 66, 12, 67, 12] = 3 ∧
    (signPdf true testLoadKey testLoadCert testCms testFs3 "doc.pdf"
      (some "key.pem") (some "cert.pem") (some "img.png") "pw" 100).sigs
      = 1 ∧
    (signPdf true testLoadKey testLoadCert testCms testFs3 "doc.pdf"
      (some "key.pem") (some "cert.pem") (some "img.png") "pw" 100).sigs
      ≠ countPages [65, 12, 66, 12, 67, 12] := by decide

/-- C6 amended: `sign_pdf` has no AllPages mode.  Every successful call
performs the signing step exactly once, and the signature metadata it
builds always targets page 0, regardless of the page count of the
document. -/
theorem claim_c6_exactly_one_signature (pdfLib : Bool)
    (loadKey : Bytes → String → Option PrivKey)
    (loadCert : Bytes → Option Cert)
    (cmsSign : Bytes → SignData → PrivKey → Cert → Option Bytes)
    (fs : FS) (pdfPath : String)
    (keyPath certPath : Option String) (ip : String)
    (password : String) (now : Nat)
    (hok : (signPdf pdfLib loadKey loadCert cmsSign fs pdfPath
        keyPath certPath (some ip) password now).ok = true) :
    (signPdf pdfLib loadKey loadCert cmsSign fs pdfPath
        keyPath certPath (some ip) password now).sigs = 1 ∧
    (mkSignData ip now).page = 0 := by
  obtain ⟨pdfData, sigBytes, hpd, heq⟩ :=
    signPdf_ok_state pdfLib loadKey loadCert cmsSign fs pdfPath
      keyPath certPath (some ip) password now hok
  exact ⟨by rw [heq], rfl⟩

theorem claim_c6_witness :
    (signPdf true testLoadKey testLoadCert testCms testFs3 "doc.pdf"
        (some "key.pem") (some "cert.pem") (some "img.png") "pw" 100).sigs
      = 1 ∧
    (mkSignData "img.png" 100).page = 0 :=
  claim_c6_exactly_one_signature true testLoadKey testLoadCert testCms
    testFs3 "doc.pdf" (some "key.pem") (some "cert.pem") "img.png" "pw" 100
    (by decide)

/-- C8 counterexample: two failures with different causes — an unreadable
private key versus a failing signing primitive — produce literally
identical caller-visible results (the bare value `False` with nothing
written), so the caller cannot distinguish them; no typed
IdentityError/AppearanceError/SigningError value exists in the code. -/
theorem claim_c8_counterexample :
    signPdf true badLoadKey testLoadCert testCms testFs "doc.pdf"
        (some "key.pem") (some "cert.pem") (some "img.png") "pw" 100
      = signPdf true testLoadKey testLoadCert badCms testFs "doc.pdf"
        (some "key.pem") (some "cert.pem") (some "img.png") "pw" 100 ∧
    (signPdf true badLoadKey testLoadCert testCms testFs "doc.pdf"
      (some "key.pem") (some "cert.pem") (some "img.png") "pw" 100).ok
      = false := by decide

/-- C8 amended: `sign_pdf` surfaces every failure as the single untyped
value `False` with the file system untouched and the signing primitive
never completed; the failure result carries no information about the
stage reached or the failure kind. -/
theorem claim_c8_failures_untyped (pdfLib : Bool)
    (loadKey : Bytes → String → Option PrivKey)
    (loadCert : Bytes → Option Cert)
    (cmsSign : Bytes → SignData → PrivKey → Cert → Option Bytes)
    (fs : FS) (pdfPath : String)
    (keyPath certPath imagePath : Option String)
    (password : String) (now : Nat)
    (hfail : (signPdf pdfLib loadKey loadCert cmsSign fs pdfPath
        keyPath certPath imagePath password now).ok = false) :
    signPdf pdfLib loadKey loadCert cmsSign fs pdfPath
        keyPath certPath imagePath password now = ⟨false, fs, 0⟩ :=
  signPdf_fail_state pdfLib loadKey loadCert cmsSign fs pdfPath
    keyPath certPath imagePath password now hfail

theorem claim_c8_witness :
    signPdf true testLoadKey testLoadCert badCms testFs "doc.pdf"
        (some "key.pem") (some "cert.pem") (some "img.png") "pw" 100
      = ⟨false, testFs, 0⟩ :=
  claim_c8_failures_untyped true testLoadKey testLoadCert badCms testFs
    "doc.pdf" (some "key.pem") (some "cert.pem") (some "img.png") "pw" 100
    (by decide)

/-- C9: whenever `image_path` is `None`, `sign_pdf` in
`src/WebApp/logic.py` fails the `all([pdf, key_path, cert_path,
image_path])` guard: it performs no cryptographic signing, writes
nothing, and returns `False`, whatever the key, certificate, password and
library state are. -/
theorem claim_c9_missing_image_disables_signing (pdfLib : Bool)
    (loadKey : Bytes → String → Option PrivKey)
    (loadCert : Bytes → Option Cert)
    (cmsSign : Bytes → SignData → PrivKey → Cert → Option Bytes)
    (fs : FS) (pdfPath : String)
    (keyPath certPath : Option String)
    (password : String) (now : Nat) :
    signPdf pdfLib loadKey loadCert cmsSign fs pdfPath
        keyPath certPath none password now = ⟨false, fs, 0⟩ := by
  unfold signPdf signPdfCore
  rcases pdfLib <;> rcases keyPath with _ | kp <;>
    rcases certPath with _ | cp <;> rfl

/-- Rectangle in page coordinate space, mirroring `fitz.Rect`. -/
structure Rect where
  x0 : Rat
  y0 : Rat
  x1 : Rat
  y1 : Rat
deriving DecidableEq

/-- Region chosen relative to the last anchor hit, as in
`add_image_to_all_pages_fitz` (`src/WebApp/logic.py` lines 82-87):
`new_x = text_rect.x0 - 25`, `new_y = text_rect.y0 - height - 10`. -/
def anchorRect (textRect : Rect) (width height : Rat) : Rect :=
  let newX := textRect.x0 - 25
  let newY := textRect.y0 - height - 10
  ⟨newX, newY, newX + width, newY + height⟩

/-- Region built from caller-supplied coordinates (lines 90-91). -/
def callerRect (x y width height : Rat) : Rect :=
  ⟨x, y, x + width, y + height⟩

/-- Fixed bottom-right-margin fallback region (lines 94-99):
`safe_x = page_w - width - 50`, `safe_y = page_h - 150`. -/
def fallbackRect (width height pageW pageH : Rat) : Rect :=
  let safeX := pageW - width - 50
  let safeY := pageH - 150
  ⟨safeX, safeY, safeX + width, safeY + height⟩

/-- Per-page region computation of `add_image_to_all_pages_fitz`
(`src/WebApp/logic.py` lines 72-99).  `sigOfTheHits` and `sigHits` are
the results of `page.search_for("Signature of the")` and
`page.search_for("Signature")`; the second list is consulted only when
the first is empty, the stamp is placed relative to the last hit
(`text_instances[-1]`), and otherwise the caller coordinates or the fixed
bottom-right fallback apply.  The `Option` mirrors the
`insert_rect = None` initialisation. -/
def computeInsertRect (sigOfTheHits sigHits : List Rect)
    (x y : Option Rat) (width height pageW pageH : Rat) : Option Rect :=
  let textInstances := if sigOfTheHits.isEmpty then sigHits else sigOfTheHits
  match textInstances.getLast? with
  | some textRect => some (anchorRect textRect width height)
  | none =>
    match x, y with
    | some xv, some yv => some (callerRect xv yv width height)
    | _, _ => some (fallbackRect width height pageW pageH)

/-- C7: the region computation of the appearance renderer always
resolves to some region.  When an anchor phrase was found, the region is
placed relative to the last hit; when no anchor was found, the
caller-supplied coordinates are used if both are present, and the fixed
bottom-right-margin region otherwise; absence of an anchor never fails
the computation. -/
theorem claim_c7_region_always_resolves (sigOfTheHits sigHits : List Rect)
    (x y : Option Rat) (width height pageW pageH : Rat) :
    ((computeInsertRect sigOfTheHits sigHits x y
        width height pageW pageH).isSome = true) ∧
    (∀ textRect,
      (if sigOfTheHits.isEmpty then sigHits else sigOfTheHits).getLast?
          = some textRect →
      computeInsertRect sigOfTheHits sigHits x y width height pageW pageH
        = some (anchorRect textRect width height)) ∧
    (∀ xv yv,
      (if sigOfTheHits.isEmpty then sigHits else sigOfTheHits) = [] →
      x = some xv → y = some yv →
      computeInsertRect sigOfTheHits sigHits x y width height pageW pageH
        = some (callerRect xv yv width height)) ∧
    ((if sigOfTheHits.isEmpty then sigHits else sigOfTheHits) = [] →
      (x = none ∨ y = none) →
      computeInsertRect sigOfTheHits sigHits x y width height pageW pageH
        = some (fallbackRect width height pageW pageH)) := by
  unfold computeInsertRect
  refine ⟨?_, ?_, ?_, ?_⟩
  · rcases h : (if sigOfTheHits.isEmpty then sigHits
        else sigOfTheHits).getLast? with _ | r <;>
      simp only [h] <;> rcases x with _ | xv <;> rcases y with _ | yv <;> rfl
  · intro textRect h
    simp only [h]
  · intro xv yv hempty hx hy
    subst hx
    subst hy
    simp only [hempty, List.getLast?_nil]
  · intro hempty hxy
    simp only [hempty, List.getLast?_nil]
    rcases hxy with hx | hy
    · subst hx
      rcases y with _ | yv <;> rfl
    · subst hy
      rcases x with _ | xv <;> rfl

theorem claim_c7_witness :
    ((computeInsertRect [] [] none none 100 40 612 792).isSome = true) ∧
    (∀ textRect,
      (if List.isEmpty ([] : List Rect) then ([] : List Rect)
          else ([] : List Rect)).getLast? = some textRect →
      computeInsertRect [] [] none none 100 40 612 792
        = some (anchorRect textRect 100 40)) ∧
    (∀ xv yv,
      (if List.isEmpty ([] : List Rect) then ([] : List Rect)
          else ([] : List Rect)) = [] →
      (none : Option Rat) = some xv → (none : Option Rat) = some yv →
      computeInsertRect [] [] none none 100 40 612 792
        = some (callerRect xv yv 100 40)) ∧
    ((if List.isEmpty ([] : List Rect) then ([] : List Rect)
        else ([] : List Rect)) = [] →
      ((none : Option Rat) = none ∨ (none : Option Rat) = none) →
      computeInsertRect [] [] none none 100 40 612 792
        = some (fallbackRect 100 40 612 792)) :=
  claim_c7_region_always_resolves [] [] none none 100 40 612 792

/-- The upload folder configured in `src/WebApp/app.py`
(`UPLOAD_FOLDER = 'uploads'`). -/
def uploadFolder : String := "uploads"

/-- Path of a file saved into the upload folder
(`os.path.join(app.config[..], secure_filename(..))`). -/
def uploadPath (name : String) : String := uploadFolder ++ "/" ++ name

/-- Whether a path lies in the upload folder (the files enumerated by
`os.listdir(folder)` in `cleanup_uploads`).  Stated over the underlying
character list so that concrete instances evaluate. -/
def inUploadFolder (p : String) : Bool :=
  p.data.take 8 = (uploadFolder ++ "/").data

/-- `cleanup_uploads` from `src/WebApp/app.py` (lines 19-39): deletes
every file in the upload folder whose path is not in the exclude list. -/
def cleanupUploads (fs : FS) (exclude : List String) : FS :=
  fs.filter fun e => !(inUploadFolder e.1) || decide (e.1 ∈ exclude)

theorem fsRead_cleanupUploads_deleted (fs : FS) (exclude : List String)
    (p : String) (hin : inUploadFolder p = true)
    (hex : p ∉ exclude) :
    fsRead (cleanupUploads fs exclude) p = none := by
  induction fs with
  | nil => rfl
  | cons e rest ih =>
    by_cases hkeep : (!(inUploadFolder e.1) || decide (e.1 ∈ exclude))
        = true
    · have hne : e.1 ≠ p := by
        intro hcontra
        rw [hcontra, hin] at hkeep
        simp [hex] at hkeep
      simp only [cleanupUploads, List.filter] at ih ⊢
      rw [hkeep]
      simpa [fsRead, hne] using ih
    · simp only [cleanupUploads, List.filter] at ih ⊢
      rw [Bool.of_not_eq_true hkeep]
      exact ih

/-- Outcome of running the report controller inside `generate_report`
(`src/WebApp/app.py`).  `ReportController.run` either returns the path
of the report file it wrote, returns a falsy value such as `None`
(`src/WebApp/logic.py` line 481 when no student data was read and lines
487-489 when no students match the filter), or raises.  The handler
treats the three outcomes differently (lines 151-169, 148-149 and
171-174 respectively). -/
inductive ControllerResult where
  | output (outPath : String) (outBytes : Bytes)
  | noReport
  | excepted
deriving DecidableEq

/-- The signing-material slice of `generate_report` in
`src/WebApp/app.py`.  With digital signing enabled the handler saves the
uploaded key and certificate files into the upload folder (lines
111-127) and runs the report controller, which performs report
generation and signing.  Three outcomes follow:

- the controller returns an output path (lines 151-169): the response
  file is sent and the upload folder is deleted except for the response
  file (`cleanup_uploads(app.config['UPLOAD_FOLDER'],
  exclude=[output_path])`);
- the controller returns a falsy value (lines 148-149): the handler
  answers with a 500 error and performs no cleanup at all, leaving the
  saved key and certificate files behind in the upload folder;
- the controller raises (lines 171-174): the handler answers with a 500
  error and deletes the whole upload folder with no exclusion.

`runController` abstracts `ReportController.run` together with the
writer and `sign_pdf`: given the file system and the saved key and
certificate paths it yields one of the three outcomes. -/
def generateReport (fs : FS) (keyName certName : String)
    (keyBytes certBytes : Bytes)
    (runController : FS → String → String → ControllerResult) : FS :=
  let kp := uploadPath keyName
  let cp := uploadPath certName
  let fs1 := fsWrite (fsWrite fs kp keyBytes) cp certBytes
  match runController fs1 kp cp with
  | .output outPath outBytes =>
    cleanupUploads (fsWrite fs1 outPath outBytes) [outPath]
  | .noReport => fs1
  | .excepted => cleanupUploads fs1 []

/-- C5 counterexample: after a single successful signing request, the
saved key and certificate files are gone from storage —
`cleanup_uploads` deleted them before the request finished.  Nothing
keyed by the signer name is ever written, so a second resolution cannot
return stored material: material is discarded between requests, not
persisted and reused. -/
theorem claim_c5_counterexample :
    fsRead (generateReport [] "key.pem" "cert.pem" [1, 2] [3]
        (fun _ _ _ => .output "Learner_Monitor_Reports/r.pdf" [5]))
        (uploadPath "key.pem") = none ∧
    fsRead (generateReport [] "key.pem" "cert.pem" [1, 2] [3]
        (fun _ _ _ => .output "Learner_Monitor_Reports/r.pdf" [5]))
        (uploadPath "cert.pem") = none ∧
    fsRead (generateReport [] "key.pem" "cert.pem" [1, 2] [3]
        (fun _ _ _ => .output "Learner_Monitor_Reports/r.pdf" [5]))
        ("Learner_Monitor_Reports/r.pdf") = some [5] := by decide

/-- C5 amended: the web app does not persist or resolve signer material
by name.  Each request saves the freshly uploaded key and certificate
files into the upload folder; when the controller produces a report, or
raises, `cleanup_uploads` deletes them again before the request
completes, while when the controller returns a falsy value the handler
performs no cleanup and the uploaded files are left behind exactly as
saved.  In no case is material stored keyed by a signer name or reused
by a later resolution. -/
theorem claim_c5_material_not_persisted (fs : FS)
    (keyName certName : String) (keyBytes certBytes : Bytes)
    (runController : FS → String → String → ControllerResult)
    (hout : ∀ outPath outBytes,
      runController
          (fsWrite (fsWrite fs (uploadPath keyName) keyBytes)
            (uploadPath certName) certBytes)
          (uploadPath keyName) (uploadPath certName)
        = .output outPath outBytes →
      outPath ≠ uploadPath keyName ∧ outPath ≠ uploadPath certName)
    (hkin : inUploadFolder (uploadPath keyName) = true)
    (hcin : inUploadFolder (uploadPath certName) = true)
    (hne : uploadPath keyName ≠ uploadPath certName) :
    (∀ outPath outBytes,
      runController
          (fsWrite (fsWrite fs (uploadPath keyName) keyBytes)
            (uploadPath certName) certBytes)
          (uploadPath keyName) (uploadPath certName)
        = .output outPath outBytes →
      fsRead (generateReport fs keyName certName keyBytes certBytes
          runController) (uploadPath keyName) = none ∧
      fsRead (generateReport fs keyName certName keyBytes certBytes
          runController) (uploadPath certName) = none) ∧
    (runController
          (fsWrite (fsWrite fs (uploadPath keyName) keyBytes)
            (uploadPath certName) certBytes)
          (uploadPath keyName) (uploadPath certName) = .excepted →
      fsRead (generateReport fs keyName certName keyBytes certBytes
          runController) (uploadPath keyName) = none ∧
      fsRead (generateReport fs keyName certName keyBytes certBytes
          runController) (uploadPath certName) = none) ∧
    (runController
          (fsWrite (fsWrite fs (uploadPath keyName) keyBytes)
            (uploadPath certName) certBytes)
          (uploadPath keyName) (uploadPath certName) = .noReport →
      fsRead (generateReport fs keyName certName keyBytes certBytes
          runController) (uploadPath keyName) = some keyBytes ∧
      fsRead (generateReport fs keyName certName keyBytes certBytes
          runController) (uploadPath certName) = some certBytes) := by
  refine ⟨?_, ?_, ?_⟩
  · intro outPath outBytes hrc
    obtain ⟨hne1, hne2⟩ := hout outPath outBytes hrc
    unfold generateReport
    simp only [hrc]
    exact ⟨fsRead_cleanupUploads_deleted _ _ _ hkin
        (by simp [Ne.symm hne1]),
      fsRead_cleanupUploads_deleted _ _ _ hcin (by simp [Ne.symm hne2])⟩
  · intro hrc
    unfold generateReport
    simp only [hrc]
    exact ⟨fsRead_cleanupUploads_deleted _ _ _ hkin (by simp),
      fsRead_cleanupUploads_deleted _ _ _ hcin (by simp)⟩
  · intro hrc
    unfold generateReport
    simp only [hrc]
    refine ⟨?_, fsRead_fsWrite_self _ _ _⟩
    rw [fsRead_fsWrite_ne _ _ _ _ hne]
    exact fsRead_fsWrite_self _ _ _

/-- A concrete controller outcome for example runs: a report written
outside the upload folder. -/
def testRunController : FS → String → String → ControllerResult :=
  fun _ _ _ => .output "out.pdf" [5]

theorem claim_c5_witness :
    (∀ outPath outBytes,
      testRunController
          (fsWrite (fsWrite [] (uploadPath "key.pem") [1, 2])
            (uploadPath "cert.pem") [3])
          (uploadPath "key.pem") (uploadPath "cert.pem")
        = .output outPath outBytes →
      fsRead (generateReport [] "key.pem" "cert.pem" [1, 2] [3]
          testRunController) (uploadPath "key.pem") = none ∧
      fsRead (generateReport [] "key.pem" "cert.pem" [1, 2] [3]
          testRunController) (uploadPath "cert.pem") = none) ∧
    (testRunController
          (fsWrite (fsWrite [] (uploadPath "key.pem") [1, 2])
            (uploadPath "cert.pem") [3])
          (uploadPath "key.pem") (uploadPath "cert.pem") = .excepted →
      fsRead (generateReport [] "key.pem" "cert.pem" [1, 2] [3]
          testRunController) (uploadPath "key.pem") = none ∧
      fsRead (generateReport [] "key.pem" "cert.pem" [1, 2] [3]
          testRunController) (uploadPath "cert.pem") = none) ∧
    (testRunController
          (fsWrite (fsWrite [] (uploadPath "key.pem") [1, 2])
            (uploadPath "cert.pem") [3])
          (uploadPath "key.pem") (uploadPath "cert.pem") = .noReport →
      fsRead (generateReport [] "key.pem" "cert.pem" [1, 2] [3]
          testRunController) (uploadPath "key.pem") = some [1, 2] ∧
      fsRead (generateReport [] "key.pem" "cert.pem" [1, 2] [3]
          testRunController) (uploadPath "cert.pem") = some [3]) :=
  claim_c5_material_not_persisted [] "key.pem" "cert.pem" [1, 2] [3]
    testRunController
    (fun outPath outBytes h => by
      injection h with h4 h5
      subst h4
      exact ⟨by decide, by decide⟩)
    (by decide) (by decide) (by decide)

/-- One parsed page of a PDF, as seen through `PyPDF2.PdfReader`; only
the mediabox width is read by `sign_pdf` in `src/learner.py`. -/
structure PdfPage where
  mediaboxWidth : Rat
deriving DecidableEq

/-- A parsed PDF (`PyPDF2.PdfReader` result). -/
structure PdfDoc where
  pages : List PdfPage
deriving DecidableEq

/-- The fixed output path hard-coded in `src/learner.py` line 180. -/
def tempVisualPath : String := "temp_visually_signed.pdf"

/-- The per-page signature boxes computed in `src/learner.py` lines
118-128: for page index `i`, `x2 = page_width - 50`,
`y2 = 50 + sig_height`, `x1 = x2 - sig_width`, `y1 = 50`. -/
def sigBoxes (pages : List PdfPage) (sigW sigH : Rat) :
    List (Nat × Rat × Rat × Rat × Rat) :=
  pages.enum.map fun pair =>
    let x2 := pair.2.mediaboxWidth - 50
    let y2 := 50 + sigH
    let x1 := x2 - sigW
    let y1 := (50 : Rat)
    (pair.1, x1, y1, x2, y2)

/-- Shallow embedding of `sign_pdf` from `src/learner.py` (lines
64-200).  External libraries are parameters: `loadKey` and `loadCert` as
before, `parsePdf` for `PyPDF2.PdfReader`, `imageSize` for
`PIL.Image.open(...).size`, and `rebuild` for the reportlab/PyPDF2
overlay loop plus `PdfWriter.write` (lines 130-160), which re-serialises
the stamped document.  The function checks that all five arguments are
non-empty, then loads key and certificate, reads and parses the
document, reads the image and its size, scales it
(`scale_factor = 0.75`, divided by `1.33`), computes per-page signature
boxes, builds the visually stamped bytes, writes them to the fixed path
`temp_visually_signed.pdf`, and returns (line 183) — before the
cryptographic signing and the write to `pdf_path`, which are unreachable
(lines 185-196 also reference a never-assigned `signed_pdf_bytes`).
Every exception is caught (line 198).  The result is the final file
system paired with the number of cryptographic signatures produced,
which is 0 on every path. -/
def learnerSignPdf
    (loadKey : Bytes → String → Option PrivKey)
    (loadCert : Bytes → Option Cert)
    (parsePdf : Bytes → Option PdfDoc)
    (imageSize : Bytes → Option (Rat × Rat))
    (rebuild : PdfDoc → String → List (Nat × Rat × Rat × Rat × Rat) →
      Option Bytes)
    (fs : FS) (pdfPath keyPath certPath imagePath password : String) :
    FS × Nat :=
  if pdfPath = "" ∨ keyPath = "" ∨ certPath = "" ∨ imagePath = "" ∨
      password = "" then
    (fs, 0)
  else
    match fsRead fs keyPath with
    | none => (fs, 0)
    | some keyBytes =>
      match loadKey keyBytes password with
      | none => (fs, 0)
      | some _pk =>
        match fsRead fs certPath with
        | none => (fs, 0)
        | some certBytes =>
          match loadCert certBytes with
          | none => (fs, 0)
          | some _cert =>
            match fsRead fs pdfPath with
            | none => (fs, 0)
            | some pdfDataInitial =>
              match parsePdf pdfDataInitial with
              | none => (fs, 0)
              | some doc =>
                match fsRead fs imagePath with
                | none => (fs, 0)
                | some imageData =>
                  match imageSize imageData with
                  | none => (fs, 0)
                  | some dims =>
                    let sigW := dims.1 * (3 / 4) / (133 / 100)
                    let sigH := dims.2 * (3 / 4) / (133 / 100)
                    match rebuild doc imagePath
                        (sigBoxes doc.pages sigW sigH) with
                    | none => (fs, 0)
                    | some updatedPdfBytes =>
                      (fsWrite fs tempVisualPath updatedPdfBytes, 0)

/-- C10 counterexample: calling `sign_pdf` of `src/learner.py` with
`pdf_path` equal to the fixed output path `temp_visually_signed.pdf`
overwrites the input file with the re-serialised stamped bytes, so the
file at `pdf_path` is not always left byte-for-byte unchanged. -/
theorem claim_c10_counterexample :
    fsRead [(tempVisualPath, [9]), ("k.pem", [1]), ("c.pem", [2]),
        ("i.png", [3])] tempVisualPath = some [9] ∧
    fsRead (learnerSignPdf (fun _ _ => some ⟨0⟩) (fun _ => some ⟨0, 50⟩)
        (fun _ => some ⟨[⟨612⟩]⟩) (fun _ => some (100, 50))
        (fun _ _ _ => some [1, 2, 3])
        [(tempVisualPath, [9]), ("k.pem", [1]), ("c.pem", [2]),
          ("i.png", [3])]
        tempVisualPath "k.pem" "c.pem" "i.png" "pw").1 tempVisualPath
      = some [1, 2, 3] := by decide

/-- Every run of `sign_pdf` from `src/learner.py` either changes
nothing (guard failure or caught exception) or writes exactly one file,
the fixed path `temp_visually_signed.pdf`; the signature count is 0 on
every path. Shared case analysis. -/
theorem learnerSignPdf_cases
    (loadKey : Bytes → String → Option PrivKey)
    (loadCert : Bytes → Option Cert)
    (parsePdf : Bytes → Option PdfDoc)
    (imageSize : Bytes → Option (Rat × Rat))
    (rebuild : PdfDoc → String → List (Nat × Rat × Rat × Rat × Rat) →
      Option Bytes)
    (fs : FS) (pdfPath keyPath certPath imagePath password : String) :
    learnerSignPdf loadKey loadCert parsePdf imageSize rebuild fs
        pdfPath keyPath certPath imagePath password = (fs, 0) ∨
    ∃ b, learnerSignPdf loadKey loadCert parsePdf imageSize rebuild fs
        pdfPath keyPath certPath imagePath password
      = (fsWrite fs tempVisualPath b, 0) := by
  unfold learnerSignPdf
  split
  · exact Or.inl rfl
  rcases h1 : fsRead fs keyPath with _ | keyBytes <;> simp only [h1]
  · exact Or.inl trivial
  rcases h2 : loadKey keyBytes password with _ | pk <;> simp only [h2]
  · exact Or.inl trivial
  rcases h3 : fsRead fs certPath with _ | certBytes <;> simp only [h3]
  · exact Or.inl trivial
  rcases h4 : loadCert certBytes with _ | cert <;> simp only [h4]
  · exact Or.inl trivial
  rcases h5 : fsRead fs pdfPath with _ | pdfDataInitial <;> simp only [h5]
  · exact Or.inl trivial
  rcases h6 : parsePdf pdfDataInitial with _ | doc <;> simp only [h6]
  · exact Or.inl trivial
  rcases h7 : fsRead fs imagePath with _ | imageData <;> simp only [h7]
  · exact Or.inl trivial
  rcases h8 : imageSize imageData with _ | dims <;> simp only [h8]
  · exact Or.inl trivial
  rcases h9 : rebuild doc imagePath
      (sigBoxes doc.pages (dims.1 * (3 / 4) / (133 / 100))
        (dims.2 * (3 / 4) / (133 / 100))) with _ | updatedPdfBytes <;>
    simp only [h9]
  · exact Or.inl trivial
  · exact Or.inr ⟨updatedPdfBytes, rfl⟩

/-- C10 amended: on every run of `sign_pdf` from `src/learner.py`, no
cryptographic signature is ever produced and the only file ever written
is the fixed path `temp_visually_signed.pdf`; consequently, whenever
`pdf_path` is not that fixed path itself, the file at `pdf_path` is left
byte-for-byte unchanged. -/
theorem claim_c10_only_temp_written
    (loadKey : Bytes → String → Option PrivKey)
    (loadCert : Bytes → Option Cert)
    (parsePdf : Bytes → Option PdfDoc)
    (imageSize : Bytes → Option (Rat × Rat))
    (rebuild : PdfDoc → String → List (Nat × Rat × Rat × Rat × Rat) →
      Option Bytes)
    (fs : FS) (pdfPath keyPath certPath imagePath password : String)
    (hne : pdfPath ≠ tempVisualPath) :
    (learnerSignPdf loadKey loadCert parsePdf imageSize rebuild fs
        pdfPath keyPath certPath imagePath password).2 = 0 ∧
    fsRead (learnerSignPdf loadKey loadCert parsePdf imageSize rebuild fs
        pdfPath keyPath certPath imagePath password).1 pdfPath
      = fsRead fs pdfPath ∧
    ∀ q, q ≠ tempVisualPath →
      fsRead (learnerSignPdf loadKey loadCert parsePdf imageSize rebuild
          fs pdfPath keyPath certPath imagePath password).1 q
        = fsRead fs q := by
  rcases learnerSignPdf_cases loadKey loadCert parsePdf imageSize rebuild
      fs pdfPath keyPath certPath imagePath password with h | ⟨b, h⟩
  · rw [h]
    exact ⟨rfl, rfl, fun q _ => rfl⟩
  · rw [h]
    exact ⟨rfl, fsRead_fsWrite_ne fs tempVisualPath pdfPath b hne,
      fun q hq => fsRead_fsWrite_ne fs tempVisualPath q b hq⟩

theorem claim_c10_witness :
    (learnerSignPdf (fun _ _ => some ⟨0⟩) (fun _ => some ⟨0, 50⟩)
        (fun _ => some ⟨[⟨612⟩]⟩) (fun _ => some (100, 50))
        (fun _ _ _ => some [1, 2, 3])
        [("doc.pdf", [9]), ("k.pem", [1]), ("c.pem", [2]), ("i.png", [3])]
        "doc.pdf" "k.pem" "c.pem" "i.png" "pw").2 = 0 ∧
    fsRead (learnerSignPdf (fun _ _ => some ⟨0⟩) (fun _ => some ⟨0, 50⟩)
        (fun _ => some ⟨[⟨612⟩]⟩) (fun _ => some (100, 50))
        (fun _ _ _ => some [1, 2, 3])
        [("doc.pdf", [9]), ("k.pem", [1]), ("c.pem", [2]), ("i.png", [3])]
        "doc.pdf" "k.pem" "c.pem" "i.png" "pw").1 "doc.pdf"
      = fsRead [("doc.pdf", [9]), ("k.pem", [1]), ("c.pem", [2]),
          ("i.png", [3])] "doc.pdf" ∧
    ∀ q, q ≠ tempVisualPath →
      fsRead (learnerSignPdf (fun _ _ => some ⟨0⟩) (fun _ => some ⟨0, 50⟩)
          (fun _ => some ⟨[⟨612⟩]⟩) (fun _ => some (100, 50))
          (fun _ _ _ => some [1, 2, 3])
          [("doc.pdf", [9]), ("k.pem", [1]), ("c.pem", [2]),
            ("i.png", [3])]
          "doc.pdf" "k.pem" "c.pem" "i.png" "pw").1 q
        = fsRead [("doc.pdf", [9]), ("k.pem", [1]), ("c.pem", [2]),
            ("i.png", [3])] q :=
  claim_c10_only_temp_written (fun _ _ => some ⟨0⟩) (fun _ => some ⟨0, 50⟩)
    (fun _ => some ⟨[⟨612⟩]⟩) (fun _ => some (100, 50))
    (fun _ _ _ => some [1, 2, 3])
    [("doc.pdf", [9]), ("k.pem", [1]), ("c.pem", [2]), ("i.png", [3])]
    "doc.pdf" "k.pem" "c.pem" "i.png" "pw" (by decide)

/-- Modelled from the spec: the certified byte range of a signed
document — the whole output excluding the `phLen` placeholder bytes
starting at `phStart` (spec sections 4.3 step 2 and 8; the incremental
signer itself, endesive `pdf.cms.sign`, is not among the repository
sources, only its call site in `src/WebApp/logic.py` is). -/
def digestRange (out : Bytes) (phStart phLen : Nat) : Bytes :=
  out.take phStart ++ out.drop (phStart + phLen)

/-- Modelled from the spec: the digest stored inside the signature
container, which the container places at the start of the placeholder
region (`digestLen` bytes at offset `phStart` of the output). -/
def embeddedDigest (out : Bytes) (phStart digestLen : Nat) : Bytes :=
  (out.drop phStart).take digestLen

/-- Modelled from the spec: the incremental signer of spec section 4.3.
`hash` is the 256-bit digest function (32-byte results), `signWith`
signs a digest with the identity private key.  The appended incremental
update consists of structural bytes `pre`, the reserved placeholder of
`phLen` bytes, and structural bytes `post`; in the repository,
`pdf.cms.sign` returns `pre ++ placeholder ++ post` and `sign_pdf`
appends it to the original `pdf_data` (here `doc`).  Steps 1-5 of the
spec: reserve the placeholder before hashing, digest the entire document
excluding the placeholder bytes, build the container from the digest and
the signature over it, fail fatally if the encoded container exceeds the
reservation, otherwise write it into the placeholder padded with filler
bytes to the reserved size. -/
def incrementalSign (hash signWith : Bytes → Bytes)
    (doc pre post : Bytes) (phLen : Nat) : Option Bytes :=
  let digest := hash (doc ++ pre ++ post)
  let container := digest ++ signWith digest
  if container.length ≤ phLen then
    some (doc ++ pre ++
      (container ++ List.replicate (phLen - container.length) 0) ++ post)
  else none

/-- C2: for every valid signing input, the embedded signature
authenticates exactly the byte range of the output excluding the
placeholder: independently re-hashing that range of the signed output
reproduces the digest contained inside the embedded signature
container.  The placeholder starts right after the original document
bytes and the structural prefix of the appended update. -/
theorem claim_c2_digest_authenticates_byte_range
    (hash signWith : Bytes → Bytes) (doc pre post out : Bytes)
    (phLen : Nat)
    (hdlen : (hash (doc ++ pre ++ post)).length = 32)
    (hsign : incrementalSign hash signWith doc pre post phLen = some out) :
    hash (digestRange out (doc.length + pre.length) phLen)
      = embeddedDigest out (doc.length + pre.length) 32 := by
  simp only [incrementalSign] at hsign
  split at hsign
  case isFalse => exact Option.noConfusion hsign
  case isTrue hle =>
    injection hsign with hout
    subst hout
    have hdig : hash (doc ++ pre ++ post)
        = hash (doc ++ pre ++ post) := rfl
    set digest := hash (doc ++ pre ++ post) with hdigdef
    set container := digest ++ signWith digest with hcontdef
    set M := container ++ List.replicate (phLen - container.length) 0
      with hMdef
    have hM : M.length = phLen := by
      rw [hMdef, List.length_append, List.length_replicate]
      omega
    have hsplit1 : doc ++ pre ++ M ++ post = (doc ++ pre) ++ (M ++ post) :=
      by simp [List.append_assoc]
    have h1 : (doc ++ pre ++ M ++ post).take (doc.length + pre.length)
        = doc ++ pre := by
      rw [hsplit1]
      exact List.take_left' (by simp)
    have h2 : (doc ++ pre ++ M ++ post).drop
        (doc.length + pre.length + phLen) = post := by
      rw [show doc ++ pre ++ M ++ post = ((doc ++ pre) ++ M) ++ post by
        simp [List.append_assoc]]
      exact List.drop_left' (by simp [hM, Nat.add_assoc])
    have h3 : (doc ++ pre ++ M ++ post).drop (doc.length + pre.length)
        = M ++ post := by
      rw [hsplit1]
      exact List.drop_left' (by simp)
    unfold digestRange embeddedDigest
    rw [h1, h2, h3, hMdef, hcontdef]
    rw [show (digest ++ signWith digest ++
        List.replicate (phLen - (digest ++ signWith digest).length) 0) ++
        post = digest ++ (signWith digest ++
        (List.replicate (phLen - (digest ++ signWith digest).length) 0 ++
        post)) by simp [List.append_assoc]]
    rw [List.take_left' hdlen]

/-- A concrete 32-byte digest function for example runs: a constant
list of zeros. -/
def testHash : Bytes → Bytes := fun _ => List.replicate 32 0

/-- A concrete digest-signing function for example runs. -/
def testSignWith : Bytes → Bytes := fun _ => [7, 7]

theorem claim_c2_witness :
    testHash (digestRange
        ([1, 2, 3] ++ [4, 5] ++
          (List.replicate 32 0 ++ [7, 7] ++ List.replicate 6 0) ++ [6])
        ([1, 2, 3].length + [4, 5].length) 40)
      = embeddedDigest
        ([1, 2, 3] ++ [4, 5] ++
          (List.replicate 32 0 ++ [7, 7] ++ List.replicate 6 0) ++ [6])
        ([1, 2, 3].length + [4, 5].length) 32 :=
  claim_c2_digest_authenticates_byte_range testHash testSignWith
    [1, 2, 3] [4, 5] [6]
    ([1, 2, 3] ++ [4, 5] ++
      (List.replicate 32 0 ++ [7, 7] ++ List.replicate 6 0) ++ [6])
    40 (by decide) (by decide)
